import Mathlib

/-!
Verification of the trm-doppler repository (Doppler tomography maps).

This file shallowly embeds the parts of the repository that the claims are
about: the `Image` class of trm/doppler/map.py (constructor, `toHDU`,
`fromHDU`), the `Map` constructor of the same file, and the command-line
front end scripts/memit.py.  Python floats are modelled as rationals (ℚ);
numpy arrays are modelled by their shape together with their flattened
contents.  Fallible Python code (code that can raise) is modelled with
`Except`.  The forward/adjoint projection operator lives in the native
extension trm/doppler/doppler.cc, which is not part of the sources; it is
modelled from the specification where a claim needs it.
-/

/-- Model of a numpy ndarray: its shape and its flattened contents.
Only the number of dimensions and the contents are ever consulted by the
code under study. -/
structure NArr where
  shape : List Nat
  flat : List ℚ
deriving DecidableEq

/-- `ndarray.ndim` : the number of dimensions. -/
def NArr.ndim (a : NArr) : Nat := a.shape.length

/-- A Python argument that may be a scalar or a numpy array, as accepted by
`Image.__init__` for `wave`, `gamma` and `scale`.  `array extra elems`
models an ndarray of `extra + 1` dimensions with flattened contents
`elems` (0-dimensional arrays are outside the model). -/
inductive PyArg where
  | scalar (x : ℚ)
  | array (extra : Nat) (elems : List ℚ)
deriving DecidableEq

/-- Is the argument an ndarray with more than one dimension? -/
def PyArg.multiDim : PyArg → Bool
  | .array (_+1) _ => true
  | _ => false

/-- The 1-D contents `Image.__init__` stores for a `wave`/`gamma` argument:
a scalar `x` becomes the one-element array `[float(x)]`, a 1-D array is
kept as is, and a higher-dimensional array is rejected (`none`). -/
def PyArg.stored : PyArg → Option (List ℚ)
  | .scalar x => some [x]
  | .array 0 l => some l
  | .array (_+1) _ => none

/-- The `data` argument of `Image.__init__`: either not a numpy array at
all, or an ndarray. -/
inductive DataIn where
  | notArray
  | arr (a : NArr)
deriving DecidableEq

/-- Python exceptions raised by the modelled code.  `doppler` is the
package's own `DopplerError`; `keyErr` models a `KeyError` from a header
lookup; `typeErr` models a non-`DopplerError` failure at a typed model
boundary (e.g. a header value of the wrong kind). -/
inductive PyErr where
  | doppler (msg : String)
  | keyErr
  | typeErr
  | indexErr
deriving DecidableEq

/-- The attributes a successfully constructed `doppler.Image` carries
(map.py lines 47-84): the data array, the Vx-Vy pixel size, the 1-D
wavelength and systemic-velocity arrays, the optional scale-factor array
and the optional Vz spacing. -/
structure Image where
  data : NArr
  vxy : ℚ
  wave : List ℚ
  gamma : List ℚ
  scale : Option (List ℚ)
  vz : Option ℚ
deriving DecidableEq

instance {ε α : Type} [DecidableEq ε] [DecidableEq α] : DecidableEq (Except ε α) := fun x y =>
  match x, y with
  | Except.ok a, Except.ok b =>
    if h : a = b then isTrue (by rw [h]) else isFalse (by intro hc; cases hc; exact h rfl)
  | Except.error a, Except.error b =>
    if h : a = b then isTrue (by rw [h]) else isFalse (by intro hc; cases hc; exact h rfl)
  | Except.ok _, Except.error _ => isFalse (by intro hc; cases hc)
  | Except.error _, Except.ok _ => isFalse (by intro hc; cases hc)

/-- `Image.__init__` (map.py lines 27-84), with each check in source
order.  A raised `DopplerError` is modelled as `Except.error`; on success
the constructed object's attributes are returned.  The `scale` argument is
`some` of a scalar or array when one was passed and `none` for Python
`None`; a non-array `scale` takes the same branch as `None` does in the
source (`isinstance(scale, np.ndarray)` fails for both). -/
def Image.init (data : DataIn) (vxy : ℚ) (wave gamma : PyArg)
    (scale : Option PyArg) (vz : Option ℚ) : Except PyErr Image :=
  match data with
  | DataIn.notArray =>
    Except.error (PyErr.doppler "Image.__init__: data must be a 2D or 3D numpy array")
  | DataIn.arr d =>
  if d.ndim < 2 ∨ 3 < d.ndim then
    Except.error (PyErr.doppler "Image.__init__: data must be a 2D or 3D numpy array")
  else if d.ndim = 3 ∧ vz = none then
    Except.error (PyErr.doppler "Image.__init__: vz must be defined for 3D data")
  else match wave.stored with
  | none =>
    Except.error (PyErr.doppler "Image.__init__: wave can at most be one dimensional")
  | some wl =>
  match gamma.stored with
  | none =>
    Except.error (PyErr.doppler "Image.__init__: gamma can at most be one dimensional")
  | some gl =>
  if gl.length ≠ wl.length then
    Except.error (PyErr.doppler "Image.__init__: gamma and wave must match in size")
  else match scale with
  | some (PyArg.array 0 sl) =>
    if sl.length ≠ wl.length then
      Except.error (PyErr.doppler "Image.__init__: scale and wave must match in size")
    else Except.ok (Image.mk d vxy wl gl (some sl) vz)
  | some (PyArg.array (_+1) _) =>
    Except.error (PyErr.doppler "Image.__init__: scale can at most be one dimensional")
  | _ =>
    if 1 < wl.length then
      Except.error (PyErr.doppler "Image.__init__: scale must be an array in wave is")
    else Except.ok (Image.mk d vxy wl gl none vz)

/-- The FITS header keywords written and read by `Image.toHDU` and
`Image.fromHDU`.  `WAVE n` renders as the string `WAVE` followed by the
decimal digits of `n` (so the keywords of distinct constructors, and of
one constructor at distinct indices, are distinct strings). -/
inductive HKey where
  | TYPE | VXY | VZ | NWAVE
  | WAVE (n : Nat) | GAMMA (n : Nat) | SCALE (n : Nat)
deriving DecidableEq

/-- A FITS header value: a string, a Python int, a Python float or Python
`None`. -/
inductive HVal where
  | str (s : String)
  | int (n : Nat)
  | num (q : ℚ)
  | pynone
deriving DecidableEq

/-- A FITS header: an ordered list of cards. -/
abbrev IHeader := List (HKey × HVal)

/-- Header lookup (`head[key]` / `key in head`): the first card with the
given keyword. -/
def hfind : IHeader → HKey → Option HVal
  | [], _ => none
  | (k, v) :: rest, key => if k = key then some v else hfind rest key

/-- `key in head`. -/
def hmem (h : IHeader) (k : HKey) : Bool := (hfind h k).isSome

/-- An `astropy.io.fits.ImageHDU`: the data array plus a header. -/
structure HDU where
  data : NArr
  header : IHeader
deriving DecidableEq

/-- The header value written for the `vz` attribute. -/
def vzVal : Option ℚ → HVal
  | some q => HVal.num q
  | none => HVal.pynone

/-- The cards written by the `for w, g, s in zip(self.wave, self.gamma,
self.scale)` loop of `Image.toHDU` (map.py lines 100-105), with `n`
counting up from 1; like `zip`, it stops at the shortest list. -/
def waveCards : Nat → List ℚ → List ℚ → List ℚ → IHeader
  | n, w :: ws, g :: gs, s :: ss =>
    (HKey.WAVE n, HVal.num w) :: (HKey.GAMMA n, HVal.num g)
      :: (HKey.SCALE n, HVal.num s) :: waveCards (n+1) ws gs ss
  | _, _, _, _ => []

/-- `Image.toHDU` (map.py lines 86-111).  For a multi-line image with
`scale = None` the `zip` raises a `TypeError`; for a single-line image
with empty `wave` or `gamma` the subscript `self.wave[0]` raises an
`IndexError` (neither can happen to an image built by `Image.init`). -/
def Image.toHDU (img : Image) : Except PyErr HDU :=
  let h0 : IHeader := [(HKey.TYPE, HVal.str "doppler.Image"), (HKey.VXY, HVal.num img.vxy)]
  let h1 := if img.data.ndim = 3 then h0 ++ [(HKey.VZ, vzVal img.vz)] else h0
  let h2 := h1 ++ [(HKey.NWAVE, HVal.int img.wave.length)]
  if 1 < img.wave.length then
    match img.scale with
    | none => Except.error PyErr.typeErr
    | some s => Except.ok (HDU.mk img.data (h2 ++ waveCards 1 img.wave img.gamma s))
  else
    match img.wave, img.gamma with
    | w0 :: _, g0 :: _ =>
      Except.ok (HDU.mk img.data
        (h2 ++ [(HKey.WAVE 1, HVal.num w0), (HKey.GAMMA 1, HVal.num g0)]))
    | _, _ => Except.error PyErr.indexErr

/-- Reading a numeric header value into a float array slot
(`wave[n] = head['WAVE' + str(n+1)]`): a missing keyword is a `KeyError`;
a non-numeric value fails the float conversion. -/
def getNum (h : IHeader) (k : HKey) : Except PyErr ℚ :=
  match hfind h k with
  | none => Except.error PyErr.keyErr
  | some (HVal.num q) => Except.ok q
  | some (HVal.int n) => Except.ok (n : ℚ)
  | some _ => Except.error PyErr.typeErr

/-- `vz = head['VZ']` (map.py line 126): the value is bound as is, so a
stored Python `None` reads back as `None`; a missing keyword is a
`KeyError`.  (A non-numeric, non-`None` value is outside the typed
model.) -/
def getVz (h : IHeader) : Except PyErr (Option ℚ) :=
  match hfind h HKey.VZ with
  | none => Except.error PyErr.keyErr
  | some (HVal.num q) => Except.ok (some q)
  | some (HVal.int n) => Except.ok (some (n : ℚ))
  | some HVal.pynone => Except.ok none
  | some (HVal.str _) => Except.error PyErr.typeErr

/-- `nwave = head['NWAVE']` (map.py line 130), used as the integer length
of `np.empty((nwave))` and the bound of `xrange(nwave)`. -/
def getNWave (h : IHeader) : Except PyErr Nat :=
  match hfind h HKey.NWAVE with
  | none => Except.error PyErr.keyErr
  | some (HVal.int n) => Except.ok n
  | some _ => Except.error PyErr.typeErr

/-- The `for n in xrange(nwave)` read loop of `Image.fromHDU` (map.py
lines 134-138): for each `n` starting at `i`, read `WAVE(n+1)`,
`GAMMA(n+1)` and, when `nwave > 1`, `SCALE(n+1)`, in that order.  The
scale list is filled with `0` placeholders when no scale is read (it is
discarded in that case). -/
def readCards (h : IHeader) (withScale : Bool) : Nat → Nat → Except PyErr (List ℚ × List ℚ × List ℚ)
  | _, 0 => Except.ok ([], [], [])
  | i, k+1 =>
    (getNum h (HKey.WAVE (i+1))).bind fun w =>
    (getNum h (HKey.GAMMA (i+1))).bind fun g =>
    (if withScale then getNum h (HKey.SCALE (i+1)) else Except.ok 0).bind fun s =>
    (readCards h withScale (i+1) k).bind fun wgs =>
    Except.ok (w :: wgs.1, g :: wgs.2.1, s :: wgs.2.2)

/-- `Image.fromHDU` (map.py lines 113-140): check the required keywords,
read the metadata, then construct the `Image` through `Image.__init__`. -/
def Image.fromHDU (hdu : HDU) : Except PyErr Image :=
  let data := hdu.data
  let head := hdu.header
  if ¬(hmem head HKey.VXY && hmem head HKey.NWAVE
       && hmem head (HKey.WAVE 1) && hmem head (HKey.GAMMA 1)) then
    Except.error
      (PyErr.doppler "Image.fromHDU: one or more of VXY, NWAVE, WAVE1, GAMMA1 not found in HDU")
  else
    (getNum head HKey.VXY).bind fun vxy =>
    (if data.ndim = 3 then getVz head else Except.ok none).bind fun vz =>
    (getNWave head).bind fun nwave =>
    (readCards head (decide (1 < nwave)) 0 nwave).bind fun wgs =>
    Image.init (DataIn.arr data) vxy (PyArg.array 0 wgs.1) (PyArg.array 0 wgs.2.1)
      (if 1 < nwave then some (PyArg.array 0 wgs.2.2) else none) vz

/-- The structural facts `Image.__init__` guarantees about a constructed
image (proved below in `init_valid`): data is 2D or 3D, 3D data has
a `vz`, `gamma` matches `wave` in length, a stored `scale` matches `wave`
in length, and a multi-line image has a `scale`. -/
def imgValid (img : Image) : Bool :=
  (img.data.ndim == 2 || img.data.ndim == 3) &&
  (img.data.ndim != 3 || img.vz.isSome) &&
  (img.gamma.length == img.wave.length) &&
  ((img.scale.getD img.wave).length == img.wave.length) &&
  (decide (img.wave.length ≤ 1) || img.scale.isSome)

theorem hfind_append (a b : IHeader) (k : HKey) :
    hfind (a ++ b) k = match hfind a k with
      | some v => some v
      | none => hfind b k := by
  induction a with
  | nil => simp [hfind]
  | cons c rest ih =>
    obtain ⟨ck, cv⟩ := c
    by_cases h : ck = k
    · simp [hfind, h]
    · simp [hfind, h, ih]

/-- The header section `pre` holds no `WAVE`/`GAMMA`/`SCALE` keyword with
index above `i`. -/
def noWGSfrom (pre : IHeader) (i : Nat) : Prop :=
  ∀ m, i < m → hfind pre (HKey.WAVE m) = none ∧ hfind pre (HKey.GAMMA m) = none
    ∧ hfind pre (HKey.SCALE m) = none

theorem readCards_waveCards :
    ∀ (w g s : List ℚ) (i : Nat) (pre : IHeader), noWGSfrom pre i →
      g.length = w.length → s.length = w.length →
      readCards (pre ++ waveCards (i+1) w g s) true i w.length = Except.ok (w, g, s)
  | [], [], [], i, pre, _, _, _ => by simp [waveCards, readCards]
  | [], g0 :: _, _, i, pre, _, hg, _ => by simp at hg
  | [], [], s0 :: _, i, pre, _, _, hs => by simp at hs
  | w0 :: ws, [], _, i, pre, _, hg, _ => by simp at hg
  | w0 :: ws, g0 :: gs, [], i, pre, _, _, hs => by simp at hs
  | w0 :: ws, g0 :: gs, s0 :: ss, i, pre, hpre, hg, hs => by
    have hw : hfind (pre ++ waveCards (i+1) (w0 :: ws) (g0 :: gs) (s0 :: ss)) (HKey.WAVE (i+1))
        = some (HVal.num w0) := by
      rw [hfind_append, (hpre (i+1) (Nat.lt_succ_self i)).1]
      simp [waveCards, hfind]
    have hgm : hfind (pre ++ waveCards (i+1) (w0 :: ws) (g0 :: gs) (s0 :: ss)) (HKey.GAMMA (i+1))
        = some (HVal.num g0) := by
      rw [hfind_append, (hpre (i+1) (Nat.lt_succ_self i)).2.1]
      simp [waveCards, hfind]
    have hsc : hfind (pre ++ waveCards (i+1) (w0 :: ws) (g0 :: gs) (s0 :: ss)) (HKey.SCALE (i+1))
        = some (HVal.num s0) := by
      rw [hfind_append, (hpre (i+1) (Nat.lt_succ_self i)).2.2]
      simp [waveCards, hfind]
    have hre : pre ++ waveCards (i+1) (w0 :: ws) (g0 :: gs) (s0 :: ss)
        = (pre ++ [(HKey.WAVE (i+1), HVal.num w0), (HKey.GAMMA (i+1), HVal.num g0),
                   (HKey.SCALE (i+1), HVal.num s0)]) ++ waveCards (i+2) ws gs ss := by
      simp [waveCards]
    have hpre2 : noWGSfrom (pre ++ [(HKey.WAVE (i+1), HVal.num w0),
        (HKey.GAMMA (i+1), HVal.num g0), (HKey.SCALE (i+1), HVal.num s0)]) (i+1) := by
      intro m hm
      have hmi : i < m := Nat.lt_of_succ_lt hm
      have hne : i + 1 ≠ m := Nat.ne_of_lt hm
      obtain ⟨hW, hG, hS⟩ := hpre m hmi
      refine ⟨?_, ?_, ?_⟩
      · rw [hfind_append, hW]; simp [hfind, hne]
      · rw [hfind_append, hG]; simp [hfind, hne]
      · rw [hfind_append, hS]; simp [hfind, hne]
    have ih := readCards_waveCards ws gs ss (i+1)
      (pre ++ [(HKey.WAVE (i+1), HVal.num w0), (HKey.GAMMA (i+1), HVal.num g0),
               (HKey.SCALE (i+1), HVal.num s0)]) hpre2
      (by simpa using hg) (by simpa using hs)
    simp only [List.length_cons, readCards, getNum, hw, hgm, hsc, if_pos rfl]
    rw [hre]
    simp only [ih]
    simp [Except.bind]

theorem readCards_single (pre : IHeader) (hpre : noWGSfrom pre 0) (w0 g0 : ℚ) :
    readCards (pre ++ [(HKey.WAVE 1, HVal.num w0), (HKey.GAMMA 1, HVal.num g0)]) false 0 1
      = Except.ok ([w0], [g0], [0]) := by
  obtain ⟨hW, hG, _⟩ := hpre 1 Nat.one_pos
  simp [readCards, getNum, hfind_append, hW, hG, hfind, Except.bind]

theorem init_ok_scale (d : NArr) (vxy : ℚ) (wl gl sl : List ℚ) (vz : Option ℚ)
    (h23 : d.ndim = 2 ∨ d.ndim = 3) (hvz : ¬(d.ndim = 3 ∧ vz = none))
    (hlen : gl.length = wl.length) (hsl : sl.length = wl.length) :
    Image.init (DataIn.arr d) vxy (PyArg.array 0 wl) (PyArg.array 0 gl)
      (some (PyArg.array 0 sl)) vz = Except.ok (Image.mk d vxy wl gl (some sl) vz) := by
  have h1 : ¬(d.ndim < 2 ∨ 3 < d.ndim) := by omega
  simp [Image.init, h1, hvz, PyArg.stored, hlen, hsl]

theorem init_ok_noscale (d : NArr) (vxy : ℚ) (wl gl : List ℚ) (vz : Option ℚ)
    (h23 : d.ndim = 2 ∨ d.ndim = 3) (hvz : ¬(d.ndim = 3 ∧ vz = none))
    (hlen : gl.length = wl.length) (hone : ¬(1 < wl.length)) :
    Image.init (DataIn.arr d) vxy (PyArg.array 0 wl) (PyArg.array 0 gl) none vz
      = Except.ok (Image.mk d vxy wl gl none vz) := by
  have h1 : ¬(d.ndim < 2 ∨ 3 < d.ndim) := by omega
  simp [Image.init, h1, hvz, PyArg.stored, hlen, hone]

/-- C1 (amended): writing an `Image` with `toHDU` and reading it back with
`fromHDU` reproduces `data`, `vxy`, `wave` and `gamma` exactly; `scale`
survives exactly when the image has more than one wavelength, and `vz`
exactly when `data` is 3D (a 2D image's `vz` and a single-line image's
`scale` come back as `None`).  `imgValid` states the invariants
`Image.__init__` establishes; a zero-line image cannot be written at all
(`self.wave[0]` in `toHDU` raises). -/
theorem image_toHDU_fromHDU_roundtrip (img : Image) (hv : imgValid img = true)
    (hne : img.wave ≠ []) :
    img.toHDU.bind Image.fromHDU
      = Except.ok { img with
          scale := if 1 < img.wave.length then img.scale else none,
          vz := if img.data.ndim = 3 then img.vz else none } := by
  obtain ⟨d, vxy, wave, gamma, scale, vz⟩ := img
  simp only [imgValid, Bool.and_eq_true, Bool.or_eq_true, beq_iff_eq, bne_iff_ne,
    decide_eq_true_eq, Option.isSome_iff_exists] at hv
  obtain ⟨⟨⟨⟨h23, hvzs⟩, hlen⟩, hsl⟩, hms⟩ := hv
  obtain ⟨w0, ws, rfl⟩ : ∃ a l, wave = a :: l := by
    cases wave with
    | nil => exact absurd rfl hne
    | cons a l => exact ⟨a, l, rfl⟩
  by_cases hmulti : 1 < (w0 :: ws).length
  · -- more than one line: WAVEn/GAMMAn/SCALEn cards are written and read back
    obtain ⟨s, rfl⟩ := hms.resolve_left (by omega)
    simp only [Option.getD_some] at hsl
    obtain ⟨g0, gs, rfl⟩ : ∃ a l, gamma = a :: l := by
      cases gamma with
      | nil => simp only [List.length_nil, List.length_cons] at hlen; omega
      | cons a l => exact ⟨a, l, rfl⟩
    obtain ⟨s0, ss, rfl⟩ : ∃ a l, s = a :: l := by
      cases s with
      | nil => simp only [List.length_nil, List.length_cons] at hsl; omega
      | cons a l => exact ⟨a, l, rfl⟩
    have hwsne : ws ≠ [] := by
      intro h
      subst h
      simp at hmulti
    rcases h23 with hd | hd
    · -- 2D data: no VZ card, vz reads back as None
      have hpre : noWGSfrom [(HKey.TYPE, HVal.str "doppler.Image"), (HKey.VXY, HVal.num vxy),
          (HKey.NWAVE, HVal.int (w0 :: ws).length)] 0 := by
        intro m hm
        refine ⟨?_, ?_, ?_⟩ <;> simp [hfind]
      have hpos : 0 < ws.length := List.length_pos.mpr hwsne
      have hrc := readCards_waveCards (w0 :: ws) (g0 :: gs) (s0 :: ss) 0 _ hpre hlen hsl
      simp only [List.cons_append, List.nil_append, Nat.zero_add, List.length_cons,
        waveCards] at hrc
      have hinit := init_ok_scale d vxy (w0 :: ws) (g0 :: gs) (s0 :: ss) none
        (Or.inl hd) (by simp [hd]) hlen hsl
      have ht : (Image.mk d vxy (w0 :: ws) (g0 :: gs) (some (s0 :: ss)) vz).toHDU
          = Except.ok (HDU.mk d
              ((HKey.TYPE, HVal.str "doppler.Image") :: (HKey.VXY, HVal.num vxy)
                :: (HKey.NWAVE, HVal.int (w0 :: ws).length)
                :: waveCards 1 (w0 :: ws) (g0 :: gs) (s0 :: ss))) := by
        simp [Image.toHDU, hd, hmulti, hwsne]
      rw [ht]
      simp only [Except.bind]
      simp [Image.fromHDU, hmem, hfind, waveCards, getNum, getNWave, Except.bind,
        decide_eq_true hpos, hrc, hinit, hpos, hd]
    · -- 3D data: the VZ card is written and read back
      obtain ⟨zq, rfl⟩ := hvzs.resolve_left (by simp [hd])
      have hpre : noWGSfrom [(HKey.TYPE, HVal.str "doppler.Image"), (HKey.VXY, HVal.num vxy),
          (HKey.VZ, HVal.num zq), (HKey.NWAVE, HVal.int (w0 :: ws).length)] 0 := by
        intro m hm
        refine ⟨?_, ?_, ?_⟩ <;> simp [hfind]
      have hpos : 0 < ws.length := List.length_pos.mpr hwsne
      have hrc := readCards_waveCards (w0 :: ws) (g0 :: gs) (s0 :: ss) 0 _ hpre hlen hsl
      simp only [List.cons_append, List.nil_append, Nat.zero_add, List.length_cons,
        waveCards] at hrc
      have hinit := init_ok_scale d vxy (w0 :: ws) (g0 :: gs) (s0 :: ss) (some zq)
        (Or.inr hd) (by simp) hlen hsl
      have ht : (Image.mk d vxy (w0 :: ws) (g0 :: gs) (some (s0 :: ss)) (some zq)).toHDU
          = Except.ok (HDU.mk d
              ((HKey.TYPE, HVal.str "doppler.Image") :: (HKey.VXY, HVal.num vxy)
                :: (HKey.VZ, HVal.num zq) :: (HKey.NWAVE, HVal.int (w0 :: ws).length)
                :: waveCards 1 (w0 :: ws) (g0 :: gs) (s0 :: ss))) := by
        simp [Image.toHDU, hd, hmulti, hwsne, vzVal]
      rw [ht]
      simp only [Except.bind]
      simp [Image.fromHDU, hmem, hfind, waveCards, getNum, getVz, getNWave, Except.bind,
        decide_eq_true hpos, hrc, hinit, hpos, hd]
  · -- a single line: only WAVE1 and GAMMA1 are written; scale reads back as None
    have hws : ws = [] := by
      simp only [List.length_cons] at hmulti
      cases ws with
      | nil => rfl
      | cons a l => simp at hmulti
    subst hws
    obtain ⟨g0, rfl⟩ : ∃ a, gamma = [a] := by
      apply List.length_eq_one.mp
      simp only [List.length_cons, List.length_nil] at hlen
      omega
    rcases h23 with hd | hd
    · have hpre : noWGSfrom [(HKey.TYPE, HVal.str "doppler.Image"), (HKey.VXY, HVal.num vxy),
          (HKey.NWAVE, HVal.int 1)] 0 := by
        intro m hm
        refine ⟨?_, ?_, ?_⟩ <;> simp [hfind]
      have hrc := readCards_single _ hpre w0 g0
      simp only [List.cons_append, List.nil_append] at hrc
      have hinit := init_ok_noscale d vxy [w0] [g0] none (Or.inl hd) (by simp [hd])
        (by simp) (by simp)
      have ht : (Image.mk d vxy [w0] [g0] scale vz).toHDU
          = Except.ok (HDU.mk d
              [(HKey.TYPE, HVal.str "doppler.Image"), (HKey.VXY, HVal.num vxy),
               (HKey.NWAVE, HVal.int 1), (HKey.WAVE 1, HVal.num w0),
               (HKey.GAMMA 1, HVal.num g0)]) := by
        simp [Image.toHDU, hd]
      rw [ht]
      simp only [Except.bind]
      simp [Image.fromHDU, hmem, hfind, getNum, getNWave, Except.bind, hrc, hinit, hd]
    · obtain ⟨zq, rfl⟩ := hvzs.resolve_left (by simp [hd])
      have hpre : noWGSfrom [(HKey.TYPE, HVal.str "doppler.Image"), (HKey.VXY, HVal.num vxy),
          (HKey.VZ, HVal.num zq), (HKey.NWAVE, HVal.int 1)] 0 := by
        intro m hm
        refine ⟨?_, ?_, ?_⟩ <;> simp [hfind]
      have hrc := readCards_single _ hpre w0 g0
      simp only [List.cons_append, List.nil_append] at hrc
      have hinit := init_ok_noscale d vxy [w0] [g0] (some zq) (Or.inr hd) (by simp)
        (by simp) (by simp)
      have ht : (Image.mk d vxy [w0] [g0] scale (some zq)).toHDU
          = Except.ok (HDU.mk d
              [(HKey.TYPE, HVal.str "doppler.Image"), (HKey.VXY, HVal.num vxy),
               (HKey.VZ, HVal.num zq), (HKey.NWAVE, HVal.int 1), (HKey.WAVE 1, HVal.num w0),
               (HKey.GAMMA 1, HVal.num g0)]) := by
        simp [Image.toHDU, hd, vzVal]
      rw [ht]
      simp only [Except.bind]
      simp [Image.fromHDU, hmem, hfind, getNum, getVz, getNWave, Except.bind, hrc, hinit, hd]

/-- What a successful `Image.__init__` says about its inputs and the
object it built, read off the checks of map.py lines 47-84. -/
theorem init_ok_facts {data : DataIn} {vxy : ℚ} {wave gamma : PyArg}
    {scale : Option PyArg} {vz : Option ℚ} {img : Image}
    (h : Image.init data vxy wave gamma scale vz = Except.ok img) :
    (∃ d, data = DataIn.arr d ∧ img.data = d) ∧
    img.vxy = vxy ∧ img.vz = vz ∧
    wave.stored = some img.wave ∧ gamma.stored = some img.gamma ∧
    (img.data.ndim = 2 ∨ img.data.ndim = 3) ∧
    (img.data.ndim = 3 → vz ≠ none) ∧
    img.gamma.length = img.wave.length ∧
    ((∃ sl, scale = some (PyArg.array 0 sl) ∧ img.scale = some sl
        ∧ sl.length = img.wave.length) ∨
     (img.scale = none ∧ img.wave.length ≤ 1
        ∧ ∀ n l, scale ≠ some (PyArg.array n l))) := by
  rcases data with _ | d
  · exact absurd h (by simp [Image.init])
  rcases hw : wave.stored with _ | wl
  · refine absurd h ?_
    simp only [Image.init, hw]
    split_ifs <;> simp
  rcases hg : gamma.stored with _ | gl
  · refine absurd h ?_
    simp only [Image.init, hw, hg]
    split_ifs <;> simp
  rcases scale with _ | p
  · -- scale is None
    simp only [Image.init, hw, hg] at h
    split_ifs at h with h1 h2 h3 h4
    cases h
    dsimp only
    exact ⟨⟨d, rfl, rfl⟩, rfl, rfl, rfl, rfl, by omega,
      fun hd3 hvn => h2 ⟨hd3, hvn⟩, by omega,
      Or.inr ⟨rfl, by omega, fun n l hne => by simp at hne⟩⟩
  rcases p with x | ⟨n, sl⟩
  · -- scale is a non-array value: same branch as None
    simp only [Image.init, hw, hg] at h
    split_ifs at h with h1 h2 h3 h4
    cases h
    dsimp only
    exact ⟨⟨d, rfl, rfl⟩, rfl, rfl, rfl, rfl, by omega,
      fun hd3 hvn => h2 ⟨hd3, hvn⟩, by omega,
      Or.inr ⟨rfl, by omega, fun n l hne => by simp at hne⟩⟩
  rcases n with _ | m
  · -- scale is a 1-D array
    simp only [Image.init, hw, hg] at h
    split_ifs at h with h1 h2 h3 h4
    cases h
    dsimp only
    exact ⟨⟨d, rfl, rfl⟩, rfl, rfl, rfl, rfl, by omega,
      fun hd3 hvn => h2 ⟨hd3, hvn⟩, by omega,
      Or.inl ⟨sl, rfl, rfl, by omega⟩⟩
  · -- scale is a multi-dimensional array: always rejected
    refine absurd h ?_
    simp only [Image.init, hw, hg]
    split_ifs <;> simp

/-- `Image.__init__` establishes the `imgValid` invariants. -/
theorem init_valid {data : DataIn} {vxy : ℚ} {wave gamma : PyArg}
    {scale : Option PyArg} {vz : Option ℚ} {img : Image}
    (h : Image.init data vxy wave gamma scale vz = Except.ok img) :
    imgValid img = true := by
  obtain ⟨⟨d, hdat, hdd⟩, hvxy, hvz, hw, hg, h23, hvzi, hlen, hsc⟩ := init_ok_facts h
  simp only [imgValid, Bool.and_eq_true, Bool.or_eq_true, beq_iff_eq, bne_iff_ne,
    decide_eq_true_eq, Option.isSome_iff_exists]
  refine ⟨⟨⟨⟨h23, ?_⟩, hlen⟩, ?_⟩, ?_⟩
  · by_cases hd3 : img.data.ndim = 3
    · right
      rw [hvz]
      rcases hvzzz : vz with _ | z
      · exact absurd hvzzz (hvzi hd3)
      · exact ⟨z, rfl⟩
    · exact Or.inl hd3
  · rcases hsc with ⟨sl, _, hsome, hsll⟩ | ⟨hnone, _, _⟩
    · rw [hsome, Option.getD_some, hsll]
    · rw [hnone, Option.getD_none]
  · rcases hsc with ⟨sl, _, hsome, _⟩ | ⟨hnone, hle, _⟩
    · exact Or.inr ⟨sl, hsome⟩
    · exact Or.inl hle

example :
    ((Image.mk (NArr.mk [2, 2] [0, 0, 0, 0]) 1 [486] [100] none (some 50)).toHDU.bind
        Image.fromHDU)
      = Except.ok (Image.mk (NArr.mk [2, 2] [0, 0, 0, 0]) 1 [486] [100] none none) := by
  decide

example :
    ((Image.mk (NArr.mk [2, 2, 2] (List.replicate 8 0)) 1 [486, 434] [100, 90] (some [1, 2])
        (some 50)).toHDU.bind Image.fromHDU)
      = Except.ok (Image.mk (NArr.mk [2, 2, 2] (List.replicate 8 0)) 1 [486, 434] [100, 90]
          (some [1, 2]) (some 50)) := by
  decide

example :
    Image.init (DataIn.arr (NArr.mk [2, 2] [0, 0, 0, 0])) 1
      (PyArg.array 0 []) (PyArg.array 0 []) none none
      = Except.ok (Image.mk (NArr.mk [2, 2] [0, 0, 0, 0]) 1 [] [] none none) := by
  decide

example :
    Image.init (DataIn.arr (NArr.mk [2, 2, 2] [0, 0, 0, 0, 0, 0, 0, 0])) 1
      (PyArg.scalar 486) (PyArg.scalar 100) none none
      = Except.error (PyErr.doppler "Image.__init__: vz must be defined for 3D data") := by
  decide

theorem except_bind_ok {α β : Type} {x : Except PyErr α} {f : α → Except PyErr β} {b : β}
    (h : x.bind f = Except.ok b) : ∃ a, x = Except.ok a ∧ f a = Except.ok b := by
  cases x with
  | error e => exact absurd h (fun hc => Except.noConfusion hc)
  | ok a => exact ⟨a, rfl, h⟩

/-- C2 (amended): every successfully constructed `Image` stores `wave` and
`gamma` as 1-D arrays of equal length, and a scalar `wave` argument yields
exactly one line; the constructor does not, however, reject zero-length
wave arrays, so "at least one line" holds only for scalar `wave` input. -/
theorem image_line_counts {data : DataIn} {vxy : ℚ} {wave gamma : PyArg}
    {scale : Option PyArg} {vz : Option ℚ} {img : Image}
    (h : Image.init data vxy wave gamma scale vz = Except.ok img) :
    img.gamma.length = img.wave.length ∧
    (∀ x, wave = PyArg.scalar x → img.wave = [x]) := by
  obtain ⟨_, _, _, hw, _, _, _, hlen, _⟩ := init_ok_facts h
  refine ⟨hlen, fun x hx => ?_⟩
  subst hx
  simp only [PyArg.stored, Option.some_inj] at hw
  exact hw.symm

/-- C2 counterexample: `Image.__init__` accepts empty `wave` and `gamma`
arrays and builds an `Image` with zero lines, contrary to the claim that
inputs producing zero lines are rejected. -/
theorem zero_line_image_accepted :
    Image.init (DataIn.arr (NArr.mk [2, 2] [0, 0, 0, 0])) 1 (PyArg.array 0 [])
        (PyArg.array 0 []) none none
      = Except.ok (Image.mk (NArr.mk [2, 2] [0, 0, 0, 0]) 1 [] [] none none)
    ∧ (Image.mk (NArr.mk [2, 2] [0, 0, 0, 0]) 1 [] [] none none).wave.length = 0 := by
  exact ⟨rfl, rfl⟩

theorem image_line_counts_witness :
    (Image.mk (NArr.mk [2, 2] [0, 0, 0, 0]) 1 [486] [100] none none).gamma.length
        = (Image.mk (NArr.mk [2, 2] [0, 0, 0, 0]) 1 [486] [100] none none).wave.length
      ∧ ∀ x, PyArg.scalar 486 = PyArg.scalar x →
          (Image.mk (NArr.mk [2, 2] [0, 0, 0, 0]) 1 [486] [100] none none).wave = [x] :=
  image_line_counts (rfl :
    Image.init (DataIn.arr (NArr.mk [2, 2] [0, 0, 0, 0])) 1 (PyArg.scalar 486)
        (PyArg.scalar 100) none none
      = Except.ok (Image.mk (NArr.mk [2, 2] [0, 0, 0, 0]) 1 [486] [100] none none))

/-- C3 (amended): after a successful construction, `scale` is set whenever
the image has more than one wavelength, a stored `scale` always matches
`wave` in length, and `scale` is `None` whenever no array was passed; but
a scale array passed alongside a single wavelength is kept, so a one-line
image can carry scale factors. -/
theorem image_scale_facts {data : DataIn} {vxy : ℚ} {wave gamma : PyArg}
    {scale : Option PyArg} {vz : Option ℚ} {img : Image}
    (h : Image.init data vxy wave gamma scale vz = Except.ok img) :
    (1 < img.wave.length → img.scale ≠ none) ∧
    (∀ sl, img.scale = some sl → sl.length = img.wave.length) ∧
    ((∀ n l, scale ≠ some (PyArg.array n l)) → img.scale = none) := by
  obtain ⟨_, _, _, _, _, _, _, _, hsc⟩ := init_ok_facts h
  rcases hsc with ⟨sl, hin, hsome, hlen⟩ | ⟨hnone, hle, hnoarr⟩
  · refine ⟨fun _ => by simp [hsome], fun t ht => ?_, fun hall => absurd hin (hall 0 sl)⟩
    rw [hsome] at ht
    cases Option.some_inj.mp ht
    exact hlen
  · refine ⟨fun hlt => absurd hle (by omega), fun t ht => ?_, fun _ => hnone⟩
    rw [hnone] at ht
    exact absurd ht (fun hc => Option.noConfusion hc)

/-- C3 counterexample: a single-wavelength `Image` constructed with a
one-element scale array keeps it, so `scale` is not `None` although there
is only one line. -/
theorem single_line_scale_kept :
    Image.init (DataIn.arr (NArr.mk [2, 2] [0, 0, 0, 0])) 1 (PyArg.scalar 486)
        (PyArg.scalar 100) (some (PyArg.array 0 [2])) none
      = Except.ok (Image.mk (NArr.mk [2, 2] [0, 0, 0, 0]) 1 [486] [100] (some [2]) none)
    ∧ (Image.mk (NArr.mk [2, 2] [0, 0, 0, 0]) 1 [486] [100] (some [2]) none).scale ≠ none
    ∧ (Image.mk (NArr.mk [2, 2] [0, 0, 0, 0]) 1 [486] [100] (some [2]) none).wave.length = 1 := by
  refine ⟨rfl, ?_, rfl⟩
  exact fun hc => Option.noConfusion hc

theorem image_scale_facts_witness :
    (1 < (Image.mk (NArr.mk [2, 2] [0, 0, 0, 0]) 1 [486, 434] [100, 90] (some [1, 2]) none).wave.length →
      (Image.mk (NArr.mk [2, 2] [0, 0, 0, 0]) 1 [486, 434] [100, 90] (some [1, 2]) none).scale ≠ none)
    ∧ (∀ sl, (Image.mk (NArr.mk [2, 2] [0, 0, 0, 0]) 1 [486, 434] [100, 90] (some [1, 2]) none).scale = some sl →
        sl.length = (Image.mk (NArr.mk [2, 2] [0, 0, 0, 0]) 1 [486, 434] [100, 90] (some [1, 2]) none).wave.length)
    ∧ ((∀ n l, some (PyArg.array 0 [1, 2]) ≠ some (PyArg.array n l)) →
        (Image.mk (NArr.mk [2, 2] [0, 0, 0, 0]) 1 [486, 434] [100, 90] (some [1, 2]) none).scale = none) :=
  image_scale_facts (rfl :
    Image.init (DataIn.arr (NArr.mk [2, 2] [0, 0, 0, 0])) 1 (PyArg.array 0 [486, 434])
        (PyArg.array 0 [100, 90]) (some (PyArg.array 0 [1, 2])) none
      = Except.ok (Image.mk (NArr.mk [2, 2] [0, 0, 0, 0]) 1 [486, 434] [100, 90] (some [1, 2]) none))

/-- C4 (amended): after a successful construction, a 3D image always has a
`vz`; the constructor, however, stores the `vz` argument unchanged, so a
2D image carries a `vz` exactly when one was passed (and `fromHDU` always
passes `None` for 2D data, so images read from disk obey the claim). -/
theorem image_vz_facts {data : DataIn} {vxy : ℚ} {wave gamma : PyArg}
    {scale : Option PyArg} {vz : Option ℚ} {img : Image}
    (h : Image.init data vxy wave gamma scale vz = Except.ok img) :
    (img.data.ndim = 3 → img.vz ≠ none) ∧ img.vz = vz ∧
    (∀ hdu img2, Image.fromHDU hdu = Except.ok img2 → img2.data.ndim ≠ 3 → img2.vz = none) := by
  obtain ⟨_, _, hvz, _, _, _, hvzi, _, _⟩ := init_ok_facts h
  refine ⟨fun hd3 => by rw [hvz]; exact hvzi hd3, hvz, ?_⟩
  intro hdu img2 hfrom hnd3
  unfold Image.fromHDU at hfrom
  simp only [] at hfrom
  split_ifs at hfrom with hk h3
  · -- keywords present and 3D data: contradicts the 2D hypothesis
    obtain ⟨vxy2, hvxy2, hrest⟩ := except_bind_ok hfrom
    obtain ⟨vz2, hvz2, hrest2⟩ := except_bind_ok hrest
    obtain ⟨nw, hnw, hrest3⟩ := except_bind_ok hrest2
    obtain ⟨wgs, hwgs, hinit⟩ := except_bind_ok hrest3
    obtain ⟨⟨d2, hdarg, hdimg⟩, _, hvzeq, _, _, _, _, _, _⟩ := init_ok_facts hinit
    cases hdarg
    rw [hdimg] at hnd3
    exact absurd h3 hnd3
  · -- 2D data: the vz handed to the constructor is None
    obtain ⟨vxy2, hvxy2, hrest⟩ := except_bind_ok hfrom
    obtain ⟨vz2, hvz2, hrest2⟩ := except_bind_ok hrest
    obtain ⟨nw, hnw, hrest3⟩ := except_bind_ok hrest2
    obtain ⟨wgs, hwgs, hinit⟩ := except_bind_ok hrest3
    obtain ⟨⟨d2, hdarg, hdimg⟩, _, hvzeq, _, _, _, _, _, _⟩ := init_ok_facts hinit
    cases hdarg
    cases hvz2
    exact hvzeq

/-- C4 counterexample: a 2D `Image` constructed with `vz = 50` succeeds and
keeps `vz`, so `vz` being set does not imply the data is 3D. -/
theorem two_dim_image_with_vz :
    Image.init (DataIn.arr (NArr.mk [2, 2] [0, 0, 0, 0])) 1 (PyArg.scalar 486)
        (PyArg.scalar 100) none (some 50)
      = Except.ok (Image.mk (NArr.mk [2, 2] [0, 0, 0, 0]) 1 [486] [100] none (some 50))
    ∧ (Image.mk (NArr.mk [2, 2] [0, 0, 0, 0]) 1 [486] [100] none (some 50)).vz ≠ none
    ∧ (Image.mk (NArr.mk [2, 2] [0, 0, 0, 0]) 1 [486] [100] none (some 50)).data.ndim = 2 := by
  refine ⟨rfl, ?_, rfl⟩
  exact fun hc => Option.noConfusion hc

theorem image_vz_facts_witness :
    ((Image.mk (NArr.mk [2, 2, 2] [0, 0, 0, 0, 0, 0, 0, 0]) 1 [486] [100] none (some 50)).data.ndim = 3 →
      (Image.mk (NArr.mk [2, 2, 2] [0, 0, 0, 0, 0, 0, 0, 0]) 1 [486] [100] none (some 50)).vz ≠ none)
    ∧ (Image.mk (NArr.mk [2, 2, 2] [0, 0, 0, 0, 0, 0, 0, 0]) 1 [486] [100] none (some 50)).vz = some 50
    ∧ (∀ hdu img2, Image.fromHDU hdu = Except.ok img2 → img2.data.ndim ≠ 3 → img2.vz = none) :=
  image_vz_facts (rfl :
    Image.init (DataIn.arr (NArr.mk [2, 2, 2] [0, 0, 0, 0, 0, 0, 0, 0])) 1 (PyArg.scalar 486)
        (PyArg.scalar 100) none (some 50)
      = Except.ok (Image.mk (NArr.mk [2, 2, 2] [0, 0, 0, 0, 0, 0, 0, 0]) 1 [486] [100] none (some 50)))

/-- The structural-malformedness conditions of the claim, read over the
constructor arguments: data not a 2D/3D ndarray; 3D data without `vz`;
`wave`, `gamma` or `scale` of more than one dimension; `gamma` differing
from `wave` in length; a given scale array differing from `wave` in
length; more than one wavelength without a scale array. -/
def structurallyMalformed (data : DataIn) (wave gamma : PyArg)
    (scale : Option PyArg) (vz : Option ℚ) : Prop :=
  (data = DataIn.notArray ∨ ∃ a, data = DataIn.arr a ∧ (a.ndim < 2 ∨ 3 < a.ndim)) ∨
  (∃ a, data = DataIn.arr a ∧ a.ndim = 3 ∧ vz = none) ∨
  wave.multiDim = true ∨ gamma.multiDim = true ∨
  (∃ p, scale = some p ∧ p.multiDim = true) ∨
  (∃ wl gl, wave.stored = some wl ∧ gamma.stored = some gl ∧ gl.length ≠ wl.length) ∨
  (∃ wl sl, wave.stored = some wl ∧ scale = some (PyArg.array 0 sl) ∧ sl.length ≠ wl.length) ∨
  (∃ wl, wave.stored = some wl ∧ 1 < wl.length ∧ ∀ n l, scale ≠ some (PyArg.array n l))

set_option maxHeartbeats 3200000 in
/-- C5: `Image.__init__` raises a `DopplerError` exactly when its input is
structurally malformed in the claim's sense; in the `Except` model no
attribute of a partially initialised object is ever visible to the
caller. -/
theorem init_doppler_iff (data : DataIn) (vxy : ℚ) (wave gamma : PyArg)
    (scale : Option PyArg) (vz : Option ℚ) :
    (∃ msg, Image.init data vxy wave gamma scale vz = Except.error (PyErr.doppler msg))
      ↔ structurallyMalformed data wave gamma scale vz := by
  rcases data with _ | d
  · simp [Image.init, structurallyMalformed]
  rcases wave with x | ⟨_ | n, wl⟩ <;>
    rcases gamma with y | ⟨_ | m, gl⟩ <;>
      rcases scale with _ | (z | ⟨_ | k, sl⟩) <;>
        (simp only [Image.init, PyArg.stored]
         split_ifs <;>
           simp_all [structurallyMalformed, PyArg.stored, PyArg.multiDim] <;>
             try omega)
  all_goals
    refine Or.inr (Or.inr (Or.inl ?_))
    have hk1 : k + wl.length = k + 1 := by omega
    rw [hk1]

/-- C6 (amended): `Image.__init__` performs no sign check on `wave`: a
negative wavelength is accepted and stored unchanged, so construction
never signals an error on account of a negative entry (any rejection could
only come from the native projection extension, which is not part of the
Python sources). -/
theorem negative_wave_accepted (x vxy g : ℚ) (hx : x < 0) :
    Image.init (DataIn.arr (NArr.mk [2, 2] [0, 0, 0, 0])) vxy (PyArg.scalar x)
        (PyArg.scalar g) none none
      = Except.ok (Image.mk (NArr.mk [2, 2] [0, 0, 0, 0]) vxy [x] [g] none none) := rfl

theorem negative_wave_accepted_witness :
    Image.init (DataIn.arr (NArr.mk [2, 2] [0, 0, 0, 0])) 1 (PyArg.scalar (-486))
        (PyArg.scalar 100) none none
      = Except.ok (Image.mk (NArr.mk [2, 2] [0, 0, 0, 0]) 1 [-486] [100] none none) :=
  negative_wave_accepted (-486) 1 100 (by norm_num)

/-- C6 counterexample: constructing an `Image` whose only wavelength is the
negative value -434 returns a fully built object, not an error. -/
theorem negative_wave_no_error :
    Image.init (DataIn.arr (NArr.mk [2, 2] [0, 0, 0, 0])) 1 (PyArg.scalar (-434))
        (PyArg.scalar 100) none none
      = Except.ok (Image.mk (NArr.mk [2, 2] [0, 0, 0, 0]) 1 [-434] [100] none none) := rfl

/-- C7: `Image.fromHDU` raises a `DopplerError` whenever one of the
keywords VXY, NWAVE, WAVE1, GAMMA1 is missing from the HDU header, and
constructs an `Image` only when all four are present. -/
theorem fromHDU_required_keys (hdu : HDU) :
    (¬(hmem hdu.header HKey.VXY = true ∧ hmem hdu.header HKey.NWAVE = true
        ∧ hmem hdu.header (HKey.WAVE 1) = true ∧ hmem hdu.header (HKey.GAMMA 1) = true) →
      Image.fromHDU hdu = Except.error (PyErr.doppler
        "Image.fromHDU: one or more of VXY, NWAVE, WAVE1, GAMMA1 not found in HDU"))
    ∧ (∀ img, Image.fromHDU hdu = Except.ok img →
        hmem hdu.header HKey.VXY = true ∧ hmem hdu.header HKey.NWAVE = true
        ∧ hmem hdu.header (HKey.WAVE 1) = true ∧ hmem hdu.header (HKey.GAMMA 1) = true) := by
  constructor
  · intro hmiss
    unfold Image.fromHDU
    simp only []
    rw [if_pos]
    intro hall
    exact hmiss (by simpa [Bool.and_eq_true, and_assoc] using hall)
  · intro img hok
    by_cases hk : (hmem hdu.header HKey.VXY && hmem hdu.header HKey.NWAVE
        && hmem hdu.header (HKey.WAVE 1) && hmem hdu.header (HKey.GAMMA 1)) = true
    · simpa [Bool.and_eq_true, and_assoc] using hk
    · exfalso
      unfold Image.fromHDU at hok
      simp only [] at hok
      rw [if_pos hk] at hok
      exact Except.noConfusion hok

theorem fromHDU_required_keys_witness :
    Image.fromHDU (HDU.mk (NArr.mk [2, 2] [0, 0, 0, 0]) [])
      = Except.error (PyErr.doppler
        "Image.fromHDU: one or more of VXY, NWAVE, WAVE1, GAMMA1 not found in HDU") :=
  (fromHDU_required_keys (HDU.mk (NArr.mk [2, 2] [0, 0, 0, 0]) [])).1 (by decide)

/-- Generic `Except.map` inversion. -/
theorem except_map_ok {ε α β : Type} {x : Except ε α} {f : α → β} {b : β}
    (h : x.map f = Except.ok b) : ∃ a, x = Except.ok a ∧ f a = b := by
  cases x with
  | error e => exact absurd h (fun hc => Except.noConfusion hc)
  | ok a => exact ⟨a, rfl, by cases h; rfl⟩

/-- Generic `Except.bind` inversion. -/
theorem except_bind_ok2 {ε α β : Type} {x : Except ε α} {f : α → Except ε β} {b : β}
    (h : x.bind f = Except.ok b) : ∃ a, x = Except.ok a ∧ f a = Except.ok b := by
  cases x with
  | error e => exact absurd h (fun hc => Except.noConfusion hc)
  | ok a => exact ⟨a, rfl, h⟩

/-- The value of a list of decimal digits. -/
def digitsVal (cs : List Char) : Nat := cs.foldl (fun a c => 10 * a + (c.toNat - 48)) 0

/-- A nonempty all-digit character list. -/
def allDigits (cs : List Char) : Bool := cs.all (fun c => c.isDigit) && decide (cs ≠ [])

/-- Split a character list at the first exponent marker (e or E). -/
def splitAtExp : List Char → (List Char × Option (List Char))
  | [] => ([], none)
  | c :: rest =>
    if c = 'e' ∨ c = 'E' then ([], some rest)
    else
      let pr := splitAtExp rest
      (c :: pr.1, pr.2)

/-- Split a character list at the first decimal point. -/
def splitAtDot : List Char → (List Char × Option (List Char))
  | [] => ([], none)
  | c :: rest =>
    if c = '.' then ([], some rest)
    else
      let pr := splitAtDot rest
      (c :: pr.1, pr.2)

/-- The mantissa of a float literal: digits with an optional fractional
part, at least one digit present. -/
def mantVal? (cs : List Char) : Option ℚ :=
  let pr := splitAtDot cs
  match pr.2 with
  | none => if allDigits pr.1 then some ((digitsVal pr.1 : ℚ)) else none
  | some f =>
    if pr.1.all Char.isDigit && f.all Char.isDigit && (decide (pr.1 ≠ []) || decide (f ≠ [])) then
      some ((digitsVal pr.1 : ℚ) + (digitsVal f : ℚ) / (10 : ℚ) ^ f.length)
    else none

/-- An optionally signed decimal exponent. -/
def expVal? : List Char → Option Int
  | '-' :: rest => if allDigits rest then some (-(digitsVal rest : Int)) else none
  | '+' :: rest => if allDigits rest then some ((digitsVal rest : Int)) else none
  | cs => if allDigits cs then some ((digitsVal cs : Int)) else none

/-- Python `float(...)` on the decimal literals the memit command line
accepts: optional sign, mantissa, optional exponent (e.g. "0.2", "1.e-4",
"25"). -/
def pyFloat? (s : String) : Option ℚ :=
  let pr : ℚ × List Char :=
    match s.data with
    | '-' :: rest => (-1, rest)
    | '+' :: rest => (1, rest)
    | cs => (1, cs)
  let me := splitAtExp pr.2
  match mantVal? me.1, me.2 with
  | some mv, none => some (pr.1 * mv)
  | some mv, some ecs =>
    match expVal? ecs with
    | some ev => some (pr.1 * mv * (10 : ℚ) ^ ev)
    | none => none
  | none, _ => none

/-- Python `int(...)`: an optionally signed decimal integer. -/
def pyInt? (s : String) : Option Int :=
  match s.data with
  | '-' :: rest => if allDigits rest then some (-(digitsVal rest : Int)) else none
  | '+' :: rest => if allDigits rest then some ((digitsVal rest : Int)) else none
  | cs => if allDigits cs then some ((digitsVal cs : Int)) else none

/-- The argument record built by the parser of scripts/memit.py (lines
14-30): the five positionals and the two optional tuning flags. -/
structure MemitArgs where
  imap : String
  data : String
  niter : Int
  caim : ℚ
  omap : String
  rmax : ℚ
  tlim : ℚ
deriving DecidableEq

/-- The argparse token scan for scripts/memit.py: `-r` and `-t` each take
the following token as their value (the last occurrence wins, as in
argparse); every other token is a positional. -/
def scanArgs : List String → Except String (List String × Option String × Option String)
  | [] => Except.ok ([], none, none)
  | t :: rest =>
    if t = "-r" then
      match rest with
      | [] => Except.error "argument -r: expected one argument"
      | v :: rest2 =>
        (scanArgs rest2).map fun pr => (pr.1, some (pr.2.1.getD v), pr.2.2)
    else if t = "-t" then
      match rest with
      | [] => Except.error "argument -t: expected one argument"
      | v :: rest2 =>
        (scanArgs rest2).map fun pr => (pr.1, pr.2.1, some (pr.2.2.getD v))
    else
      (scanArgs rest).map fun pr => (t :: pr.1, pr.2.1, pr.2.2)

/-- The full command line parse of scripts/memit.py: positionals imap,
data, niter (int), caim (float), omap, with `-r` defaulting to 0.2 and
`-t` defaulting to 1e-4 (lines 17-27). -/
def parseMemit (toks : List String) : Except String MemitArgs :=
  (scanArgs toks).bind fun pr =>
  match pr.1 with
  | [imap, dataf, niterS, caimS, omap] =>
    match pyInt? niterS, pyFloat? caimS with
    | some niter, some caim =>
      (match pr.2.1 with
       | none => Except.ok ((2 : ℚ)/10)
       | some v =>
         match pyFloat? v with
         | some q => Except.ok q
         | none => Except.error "argument -r: invalid float value").bind fun rmax =>
      (match pr.2.2 with
       | none => Except.ok ((1 : ℚ)/10000)
       | some v =>
         match pyFloat? v with
         | some q => Except.ok q
         | none => Except.error "argument -t: invalid float value").bind fun tlim =>
      Except.ok (MemitArgs.mk imap dataf niter caim omap rmax tlim)
    | _, _ => Except.error "invalid int or float value"
  | _ => Except.error "wrong number of positional arguments"

/-- The positional tuple of the call `doppler.memit(dmap, data,
args.niter, args.caim, args.tlim, args.rmax)` on line 37 of
scripts/memit.py; the first two slots are the objects loaded from the
files named by the imap and data positionals. -/
structure MemitCall where
  imap : String
  dataFile : String
  niter : Int
  caim : ℚ
  tlim : ℚ
  rmax : ℚ
deriving DecidableEq

/-- Line 37 of scripts/memit.py: which parsed values reach the engine. -/
def memitInvocation (a : MemitArgs) : MemitCall :=
  MemitCall.mk a.imap a.data a.niter a.caim a.tlim a.rmax

example : pyFloat? "0.2" = some (2/10) := by
  simp [pyFloat?, mantVal?, splitAtExp, splitAtDot, allDigits, digitsVal]
example : pyFloat? "1.e-4" = some (1/10000) := by
  simp +decide [pyFloat?, mantVal?, splitAtExp, splitAtDot, allDigits, digitsVal, expVal?]
  norm_num
example : pyInt? "50" = some 50 := by
  simp [pyInt?, allDigits, digitsVal]
example : parseMemit ["m.fits", "d.fits", "50", "2.0", "o.fits"]
    = Except.ok (MemitArgs.mk "m.fits" "d.fits" 50 2 "o.fits" (2/10) (1/10000)) := by
  simp +decide [parseMemit, scanArgs, pyInt?, pyFloat?, mantVal?, splitAtExp, splitAtDot,
    allDigits, digitsVal, expVal?, Except.bind, Except.map]
example : parseMemit ["m.fits", "d.fits", "50", "2.0", "o.fits", "-r", "0.3", "-t", "1e-3"]
    = Except.ok (MemitArgs.mk "m.fits" "d.fits" 50 2 "o.fits" (3/10) (1/1000)) := by
  simp +decide [parseMemit, scanArgs, pyInt?, pyFloat?, mantVal?, splitAtExp, splitAtDot,
    allDigits, digitsVal, expVal?, Except.bind, Except.map]
  norm_num

/-- When a flag never occurs among the tokens, the scan records no value
for it. -/
theorem scanArgs_no_flag : ∀ (toks : List String) (pr : List String × Option String × Option String),
    scanArgs toks = Except.ok pr →
    ("-r" ∉ toks → pr.2.1 = none) ∧ ("-t" ∉ toks → pr.2.2 = none)
  | [], pr, h => by
    simp only [scanArgs] at h
    cases h
    exact ⟨fun _ => rfl, fun _ => rfl⟩
  | t :: rest, pr, h => by
    rw [scanArgs.eq_def] at h
    dsimp only at h
    by_cases hr : t = "-r"
    · subst hr
      rw [if_pos rfl] at h
      match rest, h with
      | v :: rest2, h =>
        obtain ⟨pr2, h2, hf⟩ := except_map_ok h
        have ih := scanArgs_no_flag rest2 pr2 h2
        subst hf
        constructor
        · intro hmem
          exact absurd (List.mem_cons_self _ _) hmem
        · intro hmem
          exact ih.2 fun hc => hmem (List.mem_cons_of_mem _ (List.mem_cons_of_mem _ hc))
    · rw [if_neg hr] at h
      by_cases ht : t = "-t"
      · subst ht
        rw [if_pos rfl] at h
        match rest, h with
        | v :: rest2, h =>
          obtain ⟨pr2, h2, hf⟩ := except_map_ok h
          have ih := scanArgs_no_flag rest2 pr2 h2
          subst hf
          constructor
          · intro hmem
            exact ih.1 fun hc => hmem (List.mem_cons_of_mem _ (List.mem_cons_of_mem _ hc))
          · intro hmem
            exact absurd (List.mem_cons_self _ _) hmem
      · rw [if_neg ht] at h
        obtain ⟨pr2, h2, hf⟩ := except_map_ok h
        have ih := scanArgs_no_flag rest pr2 h2
        subst hf
        constructor
        · intro hmem
          exact ih.1 fun hc => hmem (List.mem_cons_of_mem _ hc)
        · intro hmem
          exact ih.2 fun hc => hmem (List.mem_cons_of_mem _ hc)

/-- C8: a successful memit command line hands the iteration engine exactly
the parsed tuning parameters niter, caim, tlim and rmax; tlim defaults to
1e-4 and rmax to 0.2 when their flags are absent; and the tuning slots of
the engine call are a function of those four parsed values alone, so no
other flag can affect them. -/
theorem memit_cli_tuning (toks : List String) (a : MemitArgs)
    (h : parseMemit toks = Except.ok a) :
    ((memitInvocation a).niter, (memitInvocation a).caim, (memitInvocation a).tlim,
        (memitInvocation a).rmax) = (a.niter, a.caim, a.tlim, a.rmax)
    ∧ ("-r" ∉ toks → a.rmax = 2/10)
    ∧ ("-t" ∉ toks → a.tlim = 1/10000)
    ∧ ∀ b : MemitArgs, b.niter = a.niter → b.caim = a.caim → b.tlim = a.tlim →
        b.rmax = a.rmax →
        ((memitInvocation b).niter, (memitInvocation b).caim, (memitInvocation b).tlim,
            (memitInvocation b).rmax)
          = ((memitInvocation a).niter, (memitInvocation a).caim, (memitInvocation a).tlim,
            (memitInvocation a).rmax) := by
  have hdef : ("-r" ∉ toks → a.rmax = 2/10) ∧ ("-t" ∉ toks → a.tlim = 1/10000) := by
    unfold parseMemit at h
    obtain ⟨pr, hscan, hrest⟩ := except_bind_ok2 h
    have hflag := scanArgs_no_flag toks pr hscan
    obtain ⟨pos, ropt, topt⟩ := pr
    dsimp only at hflag hrest
    match pos, hrest with
    | [], hrest => exact absurd hrest (fun hc => Except.noConfusion hc)
    | [a1], hrest => exact absurd hrest (fun hc => Except.noConfusion hc)
    | [a1, a2], hrest => exact absurd hrest (fun hc => Except.noConfusion hc)
    | [a1, a2, a3], hrest => exact absurd hrest (fun hc => Except.noConfusion hc)
    | [a1, a2, a3, a4], hrest => exact absurd hrest (fun hc => Except.noConfusion hc)
    | a1 :: a2 :: a3 :: a4 :: a5 :: a6 :: restp, hrest =>
      exact absurd hrest (fun hc => Except.noConfusion hc)
    | [imap, dataf, niterS, caimS, omap], hrest =>
      dsimp only at hrest
      cases hni : pyInt? niterS with
      | none =>
        rw [hni] at hrest
        exact absurd hrest (fun hc => Except.noConfusion hc)
      | some niter =>
        rw [hni] at hrest
        cases hc : pyFloat? caimS with
        | none =>
          rw [hc] at hrest
          exact absurd hrest (fun hcc => Except.noConfusion hcc)
        | some caim =>
          rw [hc] at hrest
          obtain ⟨rq, hrq, hrest2⟩ := except_bind_ok2 hrest
          obtain ⟨tq, htq, hfin⟩ := except_bind_ok2 hrest2
          cases hfin
          constructor
          · intro hmemr
            have hro : ropt = none := hflag.1 hmemr
            rw [hro] at hrq
            cases hrq
            rfl
          · intro hmemt
            have hto : topt = none := hflag.2 hmemt
            rw [hto] at htq
            cases htq
            rfl
  exact ⟨rfl, hdef.1, hdef.2, fun b h1 h2 h3 h4 => by
    simp [memitInvocation, h1, h2, h3, h4]⟩

theorem memit_cli_tuning_witness :
    ((memitInvocation (MemitArgs.mk "m.fits" "d.fits" 50 2 "o.fits" (2/10) (1/10000))).niter,
        (memitInvocation (MemitArgs.mk "m.fits" "d.fits" 50 2 "o.fits" (2/10) (1/10000))).caim,
        (memitInvocation (MemitArgs.mk "m.fits" "d.fits" 50 2 "o.fits" (2/10) (1/10000))).tlim,
        (memitInvocation (MemitArgs.mk "m.fits" "d.fits" 50 2 "o.fits" (2/10) (1/10000))).rmax)
      = ((MemitArgs.mk "m.fits" "d.fits" 50 2 "o.fits" (2/10) (1/10000)).niter,
        (MemitArgs.mk "m.fits" "d.fits" 50 2 "o.fits" (2/10) (1/10000)).caim,
        (MemitArgs.mk "m.fits" "d.fits" 50 2 "o.fits" (2/10) (1/10000)).tlim,
        (MemitArgs.mk "m.fits" "d.fits" 50 2 "o.fits" (2/10) (1/10000)).rmax)
    ∧ ("-r" ∉ ["m.fits", "d.fits", "50", "2.0", "o.fits"] →
        (MemitArgs.mk "m.fits" "d.fits" 50 2 "o.fits" (2/10) (1/10000)).rmax = 2/10)
    ∧ ("-t" ∉ ["m.fits", "d.fits", "50", "2.0", "o.fits"] →
        (MemitArgs.mk "m.fits" "d.fits" 50 2 "o.fits" (2/10) (1/10000)).tlim = 1/10000)
    ∧ ∀ b : MemitArgs,
        b.niter = (MemitArgs.mk "m.fits" "d.fits" 50 2 "o.fits" (2/10) (1/10000)).niter →
        b.caim = (MemitArgs.mk "m.fits" "d.fits" 50 2 "o.fits" (2/10) (1/10000)).caim →
        b.tlim = (MemitArgs.mk "m.fits" "d.fits" 50 2 "o.fits" (2/10) (1/10000)).tlim →
        b.rmax = (MemitArgs.mk "m.fits" "d.fits" 50 2 "o.fits" (2/10) (1/10000)).rmax →
        ((memitInvocation b).niter, (memitInvocation b).caim, (memitInvocation b).tlim,
            (memitInvocation b).rmax)
          = ((memitInvocation (MemitArgs.mk "m.fits" "d.fits" 50 2 "o.fits" (2/10) (1/10000))).niter,
            (memitInvocation (MemitArgs.mk "m.fits" "d.fits" 50 2 "o.fits" (2/10) (1/10000))).caim,
            (memitInvocation (MemitArgs.mk "m.fits" "d.fits" 50 2 "o.fits" (2/10) (1/10000))).tlim,
            (memitInvocation (MemitArgs.mk "m.fits" "d.fits" 50 2 "o.fits" (2/10) (1/10000))).rmax) :=
  memit_cli_tuning ["m.fits", "d.fits", "50", "2.0", "o.fits"]
    (MemitArgs.mk "m.fits" "d.fits" 50 2 "o.fits" (2/10) (1/10000))
    (by simp +decide [parseMemit, scanArgs, pyInt?, pyFloat?, mantVal?, splitAtExp, splitAtDot,
      allDigits, digitsVal, expVal?, Except.bind, Except.map])

/-- Modelled from the spec: the Projection Operator of spec section 4.1
lives in the native extension trm/doppler/doppler.cc, which is not among
the Python sources.  Per the spec, `project` accumulates each pixel's
intensity into the wavelength bins, each contribution carrying a weight
(scale factor, instrumental blur and the kinematic bin assignment at the
given orbital phase); `w phase b p` is that weight for bin `b` and pixel
`p`.  The spectra are rationals in place of floats, so the adjoint
identity below is exact rather than up to floating-point tolerance. -/
def project (nbin npix : Nat) (w : ℚ → Fin nbin → Fin npix → ℚ) (phase : ℚ)
    (image : Fin npix → ℚ) : Fin nbin → ℚ :=
  fun b => ∑ p, w phase b p * image p

/-- Modelled from the spec: the adjoint pass of section 4.1 distributes
each wavelength-bin residual back to every contributing pixel with the
same weights used in the forward pass. -/
def backProject (nbin npix : Nat) (w : ℚ → Fin nbin → Fin npix → ℚ) (phase : ℚ)
    (r : Fin nbin → ℚ) : Fin npix → ℚ :=
  fun p => ∑ b, w phase b p * r b

/-- The inner product of two finite vectors. -/
def innerProd (n : Nat) (f g : Fin n → ℚ) : ℚ := ∑ i, f i * g i

/-- C9: back-projection is the exact adjoint of projection: for every
image, residual spectrum, phase and weight family,
⟨backProject r phase, image⟩ = ⟨r, project image phase⟩. -/
theorem backProject_adjoint (nbin npix : Nat) (w : ℚ → Fin nbin → Fin npix → ℚ)
    (phase : ℚ) (r : Fin nbin → ℚ) (image : Fin npix → ℚ) :
    innerProd npix (backProject nbin npix w phase r) image
      = innerProd nbin r (project nbin npix w phase image) := by
  simp only [innerProd, backProject, project, Finset.sum_mul, Finset.mul_sum]
  rw [Finset.sum_comm]
  apply Finset.sum_congr rfl
  intro b _
  apply Finset.sum_congr rfl
  intro p _
  ring

/-- The card keywords of a primary FITS header as `Map.__init__` uses
them: blank-keyword cards, COMMENT, HISTORY, and ordinary keywords. -/
inductive MKey where
  | blank | comment | history | key (s : String)
deriving DecidableEq

/-- A primary header: an ordered list of cards. -/
abbrev MHeader := List (MKey × String)

/-- In-place mutation of the header object at heap index `i`. -/
def hmod (store : List MHeader) (i : Nat) (f : MHeader → MHeader) : List MHeader :=
  store.set i (f (store.getD i []))

/-- A `doppler.Map` object: the heap reference of its `head` attribute
plus its Image list. -/
structure MapObj where
  headRef : Nat
  data : List Image

/-- The provenance cards `Map.__init__` appends (map.py lines 175-178). -/
def provenanceCards : MHeader :=
  [(MKey.blank, "............................"),
   (MKey.comment, "This file contains Doppler images."),
   (MKey.comment, "Images can be 2D or 3D; VXY and VZ are the X,Y and Z velocity scales"),
   (MKey.history, "Created from a doppler.Map object")]

/-- `Map.__init__` (map.py lines 161-191) over an explicit heap of header
objects: `self.head = head.copy()` allocates a fresh copy of the caller's
header, and the blank/COMMENT/HISTORY lines are then added in place to
that copy (astropy appends a card for the COMMENT and HISTORY keywords).
The `data` argument is modelled as an Image list; the remaining source
lines only wrap a bare Image into a one-element list and check that every
element is an Image, which the typed model guarantees. -/
def MapInit (store : List MHeader) (headRef : Nat) (imgs : List Image) :
    List MHeader × MapObj :=
  let s1 := store ++ [store.getD headRef []]
  let r := store.length
  let s2 := hmod s1 r (fun hd => hd ++ [(MKey.blank, "............................")])
  let s3 := hmod s2 r (fun hd => hd ++ [(MKey.comment, "This file contains Doppler images.")])
  let s4 := hmod s3 r (fun hd => hd ++
    [(MKey.comment, "Images can be 2D or 3D; VXY and VZ are the X,Y and Z velocity scales")])
  let s5 := hmod s4 r (fun hd => hd ++ [(MKey.history, "Created from a doppler.Map object")])
  (s5, MapObj.mk r imgs)

theorem hmod_append (s : List MHeader) (x : MHeader) (f : MHeader → MHeader) :
    hmod (s ++ [x]) s.length f = s ++ [f x] := by
  induction s with
  | nil => simp [hmod]
  | cons a t ih =>
    simp only [List.cons_append, List.length_cons, hmod, List.set, List.getD_cons_succ]
    simp only [hmod] at ih
    congr 1

/-- The combined effect of `Map.__init__` on the heap: one fresh header
holding the original cards plus the provenance lines. -/
theorem MapInit_eq (store : List MHeader) (headRef : Nat) (imgs : List Image) :
    MapInit store headRef imgs
      = (store ++ [store.getD headRef [] ++ provenanceCards], MapObj.mk store.length imgs) := by
  unfold MapInit
  simp only [hmod_append]
  simp [provenanceCards]

/-- C10: `Map.__init__` never mutates the caller's header: every header
object already in the heap, the caller's included, is unchanged, and the
blank/COMMENT/HISTORY provenance lines appear only on the freshly
allocated copy that the new Map's `head` refers to. -/
theorem map_init_header_frame (store : List MHeader) (headRef : Nat) (imgs : List Image)
    (h : headRef < store.length) :
    (∀ i, i < store.length → (MapInit store headRef imgs).1.getD i [] = store.getD i [])
    ∧ (MapInit store headRef imgs).2.headRef = store.length
    ∧ (MapInit store headRef imgs).1.getD (MapInit store headRef imgs).2.headRef []
        = store.getD headRef [] ++ provenanceCards
    ∧ (MapInit store headRef imgs).2.data = imgs := by
  rw [MapInit_eq]
  refine ⟨?_, rfl, ?_, rfl⟩
  · intro i hi
    dsimp only
    rw [List.getD_append _ _ _ _ hi]
  · dsimp only
    rw [List.getD_append_right _ _ _ _ (Nat.le_refl _)]
    simp

theorem map_init_header_frame_witness :
    (∀ i, i < [[(MKey.key "OBJECT", "IP Peg")]].length →
      (MapInit [[(MKey.key "OBJECT", "IP Peg")]] 0 []).1.getD i []
        = [[(MKey.key "OBJECT", "IP Peg")]].getD i [])
    ∧ (MapInit [[(MKey.key "OBJECT", "IP Peg")]] 0 []).2.headRef
        = [[(MKey.key "OBJECT", "IP Peg")]].length
    ∧ (MapInit [[(MKey.key "OBJECT", "IP Peg")]] 0 []).1.getD
          (MapInit [[(MKey.key "OBJECT", "IP Peg")]] 0 []).2.headRef []
        = [[(MKey.key "OBJECT", "IP Peg")]].getD 0 [] ++ provenanceCards
    ∧ (MapInit [[(MKey.key "OBJECT", "IP Peg")]] 0 []).2.data = [] :=
  map_init_header_frame [[(MKey.key "OBJECT", "IP Peg")]] 0 [] (by decide)

/-- C1 counterexample: a validly constructed 2D `Image` carrying `vz = 50`
does not round-trip: `toHDU` writes no VZ card for 2D data, so the
reconstructed image's `vz` is `None`, differing from the original's. -/
theorem roundtrip_drops_vz :
    Image.init (DataIn.arr (NArr.mk [2, 2] [0, 0, 0, 0])) 1 (PyArg.scalar 486)
        (PyArg.scalar 100) none (some 50)
      = Except.ok (Image.mk (NArr.mk [2, 2] [0, 0, 0, 0]) 1 [486] [100] none (some 50))
    ∧ ((Image.mk (NArr.mk [2, 2] [0, 0, 0, 0]) 1 [486] [100] none (some 50)).toHDU.bind
        Image.fromHDU)
      = Except.ok (Image.mk (NArr.mk [2, 2] [0, 0, 0, 0]) 1 [486] [100] none none)
    ∧ (Image.mk (NArr.mk [2, 2] [0, 0, 0, 0]) 1 [486] [100] none none).vz
      ≠ (Image.mk (NArr.mk [2, 2] [0, 0, 0, 0]) 1 [486] [100] none (some 50)).vz := by
  refine ⟨rfl, by decide, by decide⟩

theorem image_roundtrip_witness :
    (Image.mk (NArr.mk [2, 2, 2] [0, 0, 0, 0, 0, 0, 0, 0]) 1 [486, 434] [100, 90]
        (some [1, 2]) (some 50)).toHDU.bind Image.fromHDU
      = Except.ok { Image.mk (NArr.mk [2, 2, 2] [0, 0, 0, 0, 0, 0, 0, 0]) 1 [486, 434] [100, 90]
            (some [1, 2]) (some 50) with
          scale := if 1 < (Image.mk (NArr.mk [2, 2, 2] [0, 0, 0, 0, 0, 0, 0, 0]) 1 [486, 434]
              [100, 90] (some [1, 2]) (some 50)).wave.length then
            (Image.mk (NArr.mk [2, 2, 2] [0, 0, 0, 0, 0, 0, 0, 0]) 1 [486, 434] [100, 90]
              (some [1, 2]) (some 50)).scale
          else none,
          vz := if (Image.mk (NArr.mk [2, 2, 2] [0, 0, 0, 0, 0, 0, 0, 0]) 1 [486, 434] [100, 90]
              (some [1, 2]) (some 50)).data.ndim = 3 then
            (Image.mk (NArr.mk [2, 2, 2] [0, 0, 0, 0, 0, 0, 0, 0]) 1 [486, 434] [100, 90]
              (some [1, 2]) (some 50)).vz
          else none } :=
  image_toHDU_fromHDU_roundtrip
    (Image.mk (NArr.mk [2, 2, 2] [0, 0, 0, 0, 0, 0, 0, 0]) 1 [486, 434] [100, 90]
      (some [1, 2]) (some 50)) (by decide) (by decide)
